import Mathlib

/-!
Verification of the SuperSlicer arrangement-orchestration layer
(`src/slic3r/GUI/Jobs/ArrangeJob.cpp`) and the adjacent configuration
resolution (`src/libslic3r/PrintRegion.cpp`).

The C++ code is shallowly embedded: `double` quantities are modelled as
rationals, `int` bed indices as `Int`, geometric polygons as lists of
rational points.  External geometry helpers that are not part of the
reviewed sources (`offset_ex`, `Flow::new_from_config_width`,
`Flow::auto_extrusion_width`, `get_abs_value`) are abstracted as function
parameters, so every theorem is about the control and data flow of the
reviewed code itself.
-/

namespace ArrangeJob

/-- A polygon contour: list of points with rational coordinates
(the C++ code uses scaled integer coordinates; rationals subsume them). -/
abbrev Poly := List (Rat × Rat)

/-- Embedding of `arrangement::ArrangePolygon`: contour, translation,
rotation, virtual-bed index (an `int` in C++, `UNARRANGED = -1` possible,
hence `Int`), priority, and the back-reference to the backing scene object
(an index into the scene table, per the job's setter closure). -/
structure ArrangePolygon where
  poly : Poly
  translation : Rat × Rat
  rotation : Rat
  bed_idx : Int
  priority : Nat
  ref : Nat
  deriving DecidableEq, Repr

/-- A backing scene object (model instance or wipe tower) holding the
transform last written to it. -/
structure BackingInstance where
  translation : Rat × Rat
  rotation : Rat
  bed : Int
  deriving DecidableEq, Repr

/-- The scene: the table of backing objects, indexed by `ArrangePolygon.ref`. -/
abbrev Scene := List BackingInstance

/-- One committed write: which backing object received which transform. -/
structure WriteEntry where
  ref : Nat
  translation : Rat × Rat
  rotation : Rat
  bed : Int
  deriving DecidableEq, Repr

abbrev WriteLog := List WriteEntry

/-- Modelled from the spec: the per-item setter installed by
`get_arrange_poly` (defined outside the reviewed sources).  Per §4.6 of the
spec, `ArrangePolygon::apply()` "write[s] its placement transform into the
backing object instance (or into the tower)".  We record the write in a log
as well, so "no transform is written" is expressible as an empty log. -/
def applyAP (ap : ArrangePolygon) (acc : Scene × WriteLog) : Scene × WriteLog :=
  (acc.1.set ap.ref ⟨ap.translation, ap.rotation, ap.bed_idx⟩,
   acc.2 ++ [⟨ap.ref, ap.translation, ap.rotation, ap.bed_idx⟩])

/-- Apply every item of a list in order (`for (ArrangePolygon &ap : ...) ap.apply()`). -/
def applyAll (l : List ArrangePolygon) (acc : Scene × WriteLog) : Scene × WriteLog :=
  l.foldl (fun a ap => applyAP ap a) acc

/-- The running `beds = std::max(ap.bed_idx, beds)` fold of
`ArrangeJob::finalize`. -/
def bedsFold (l : List ArrangePolygon) (init : Int) : Int :=
  l.foldl (fun b ap => max ap.bed_idx b) init

/-- Result of `ArrangeJob::finalize`: the scene after the commit, the log of
transform writes, and the final (bed-shifted) unprintable set. -/
structure FinalizeResult where
  scene : Scene
  writes : WriteLog
  unprintable : List ArrangePolygon
  deriving DecidableEq, Repr

/-- Embedding of `ArrangeJob::finalize` (ArrangeJob.cpp:208-234).
If cancelled, return before any commit.  Otherwise: fold
`beds = max(ap.bed_idx, beds)` from 0 over the selected then the unselected
items, apply every selected item, shift every unprintable item's bed index
by `beds + 1` and apply it.  (The C++ computes the selected-set maximum and
the selected applies in one interleaved loop; `apply` neither reads nor
writes `beds`, so the two folds commute.) -/
def finalizeJob (canceled : Bool) (sel unsel unpr : List ArrangePolygon)
    (scene : Scene) : FinalizeResult :=
  if canceled then ⟨scene, [], unpr⟩
  else
    let beds := bedsFold unsel (bedsFold sel 0)
    let acc1 := applyAll sel (scene, [])
    let unpr2 := unpr.map (fun ap => { ap with bed_idx := ap.bed_idx + (beds + 1) })
    let acc2 := applyAll unpr2 acc1
    ⟨acc2.1, acc2.2, unpr2⟩

theorem bedsFold_init_le (l : List ArrangePolygon) (init : Int) :
    init ≤ bedsFold l init := by
  induction l generalizing init with
  | nil => simp [bedsFold]
  | cons a l ih =>
      calc init ≤ max a.bed_idx init := le_max_right _ _
        _ ≤ bedsFold l (max a.bed_idx init) := ih _
        _ = bedsFold (a :: l) init := rfl

theorem bedsFold_mem_le (l : List ArrangePolygon) (init : Int)
    (ap : ArrangePolygon) (h : ap ∈ l) : ap.bed_idx ≤ bedsFold l init := by
  induction l generalizing init with
  | nil => cases h
  | cons a l ih =>
      rcases List.mem_cons.mp h with h | h
      · subst h
        calc ap.bed_idx ≤ max ap.bed_idx init := le_max_left _ _
          _ ≤ bedsFold l (max ap.bed_idx init) := bedsFold_init_le _ _
      · exact ih _ h

theorem bedsFold_le (l : List ArrangePolygon) (init M : Int)
    (hub : ∀ ap ∈ l, ap.bed_idx ≤ M) (hinit : init ≤ M) :
    bedsFold l init ≤ M := by
  induction l generalizing init with
  | nil => simpa [bedsFold] using hinit
  | cons a l ih =>
      have ha : a.bed_idx ≤ M := hub a (by simp)
      have : max a.bed_idx init ≤ M := max_le ha hinit
      exact ih _ (fun ap hap => hub ap (List.mem_cons_of_mem _ hap)) this

/-- Claim C2: if the cancellation flag is true when `finalize()` starts, it
returns before performing any commit: the write log is empty, the scene (all
backing instances, tower included) is exactly the pre-run scene, and not
even the unprintable bed-shift happens. -/
theorem finalize_canceled_commits_nothing (sel unsel unpr : List ArrangePolygon)
    (scene : Scene) :
    finalizeJob true sel unsel unpr scene = ⟨scene, [], unpr⟩ := by
  simp [finalizeJob]

/-- Claim C4: during a non-cancelled commit, with `M` the maximum bed index
over selected ∪ unselected (which is nonnegative, bed indices being 0-based
after a successful run), every unprintable item's bed index is increased by
`M + 1` before its transform is written, so each engine-assigned unprintable
bed index lands strictly above every bed index used by printable content. -/
theorem finalize_unprintable_beds (sel unsel unpr : List ArrangePolygon)
    (scene : Scene) (M : Int)
    (hub : ∀ ap ∈ sel ++ unsel, ap.bed_idx ≤ M)
    (hmem : ∃ ap ∈ sel ++ unsel, ap.bed_idx = M)
    (hM : 0 ≤ M) :
    (finalizeJob false sel unsel unpr scene).unprintable
        = unpr.map (fun ap => { ap with bed_idx := ap.bed_idx + (M + 1) }) ∧
      ∀ ap ∈ unpr, 0 ≤ ap.bed_idx →
        ∀ s ∈ sel ++ unsel, s.bed_idx < ap.bed_idx + (M + 1) := by
  have hbeds : bedsFold unsel (bedsFold sel 0) = M := by
    apply le_antisymm
    · apply bedsFold_le
      · exact fun ap hap => hub ap (List.mem_append_right _ hap)
      · exact bedsFold_le sel 0 M (fun ap hap => hub ap (List.mem_append_left _ hap)) hM
    · obtain ⟨ap, hap, hval⟩ := hmem
      rcases List.mem_append.mp hap with h | h
      · calc M = ap.bed_idx := hval.symm
          _ ≤ bedsFold sel 0 := bedsFold_mem_le _ _ _ h
          _ ≤ bedsFold unsel (bedsFold sel 0) := bedsFold_init_le _ _
      · calc M = ap.bed_idx := hval.symm
          _ ≤ bedsFold unsel (bedsFold sel 0) := bedsFold_mem_le _ _ _ h
  constructor
  · simp [finalizeJob, hbeds]
  · intro ap _ hap0 s hs
    have hsM : s.bed_idx ≤ M := hub s hs
    omega

/-- Witness for C4 at a concrete commit: selected items on beds 2 and 0, an
unselected item on bed 1, so M = 2; the single unprintable item
engine-assigned to bed 0 ends on bed 3 = 0 + 2 + 1. -/
theorem finalize_unprintable_beds_witness :
    (finalizeJob false
        [⟨[], (0, 0), 0, 2, 0, 0⟩, ⟨[], (0, 0), 0, 0, 0, 1⟩]
        [⟨[], (0, 0), 0, 1, 0, 2⟩]
        [⟨[], (5, 5), 0, 0, 0, 3⟩]
        [⟨(0, 0), 0, 0⟩, ⟨(0, 0), 0, 0⟩, ⟨(0, 0), 0, 0⟩, ⟨(9, 9), 0, 0⟩]).unprintable
      = [⟨[], (5, 5), 0, 3, 0, 3⟩] := by
  have h := finalize_unprintable_beds
    [⟨[], (0, 0), 0, 2, 0, 0⟩, ⟨[], (0, 0), 0, 0, 0, 1⟩]
    [⟨[], (0, 0), 0, 1, 0, 2⟩]
    [⟨[], (5, 5), 0, 0, 0, 3⟩]
    [⟨(0, 0), 0, 0⟩, ⟨(0, 0), 0, 0⟩, ⟨(0, 0), 0, 0⟩, ⟨(9, 9), 0, 0⟩]
    2 (by decide) (by decide) (by decide)
  rw [h.1]; decide

/-- Outcome of `ArrangeJob::process`: the item sets after the engine ran (or
threw), and whether the catch block showed the non-fatal error notification. -/
structure ProcessResult where
  selected : List ArrangePolygon
  unprintable : List ArrangePolygon
  errorShown : Bool
  deriving Repr

/-- Embedding of the try/catch core of `ArrangeJob::process`
(ArrangeJob.cpp:183-200).  The packing engine is a parameter
(movable items, fixed items ↦ repositioned movable items, or failure); per
its contract (§4.5) a failing call produces no output, so the items passed
to it are returned unchanged on `error`.  The first `arrange` call runs on
(selected, unselected); if it throws, the second never runs; otherwise the
second call runs on (unprintable, ∅).  Either exception is caught in
`process` itself, `GUI::show_error` is invoked, and `process` returns
normally — nothing prevents `finalize` from running afterwards. -/
def processJob (engine : List ArrangePolygon → List ArrangePolygon →
      Except Unit (List ArrangePolygon))
    (sel unsel unpr : List ArrangePolygon) : ProcessResult :=
  match engine sel unsel with
  | .error _ => ⟨sel, unpr, true⟩
  | .ok sel2 =>
    match engine unpr [] with
    | .error _ => ⟨sel2, unpr, true⟩
    | .ok unpr2 => ⟨sel2, unpr2, false⟩

/-- One whole job run as the framework sequences it: `process` on the worker
thread, then `finalize` (which only checks the cancellation flag, never the
error outcome).  Returns the finalize result and the notification flag. -/
def runJob (engine : List ArrangePolygon → List ArrangePolygon →
      Except Unit (List ArrangePolygon))
    (canceled : Bool) (sel unsel unpr : List ArrangePolygon)
    (scene : Scene) : FinalizeResult × Bool :=
  let pr := processJob engine sel unsel unpr
  (finalizeJob canceled pr.selected unsel pr.unprintable scene, pr.errorShown)

theorem applyAll_writes_length (l : List ArrangePolygon) (acc : Scene × WriteLog) :
    (applyAll l acc).2.length = acc.2.length + l.length := by
  induction l generalizing acc with
  | nil => simp [applyAll]
  | cons a l ih =>
      have : applyAll (a :: l) acc = applyAll l (applyAP a acc) := rfl
      rw [this, ih]
      simp [applyAP]
      omega

/-- A concrete packing engine for the C1 scenario: it places every movable
item at the origin of bed 0, except that it throws on the batch containing
the item backed by scene slot 1 (the unprintable batch). -/
def failOnUnprintableEngine (movable _fixed : List ArrangePolygon) :
    Except Unit (List ArrangePolygon) :=
  if movable.any (fun ap => ap.ref == 1) then .error ()
  else .ok (movable.map (fun ap => { ap with translation := ((0 : Rat), (0 : Rat)), bed_idx := 0 }))

/-- Counterexample to claim C1.  Concrete run: one selected item backed by
scene slot 0 (at translation (1,1)), one unprintable item backed by slot 1;
the engine succeeds on the selected batch and throws on the unprintable
batch.  The non-fatal notification is raised — but `finalize()` is still
reached and commits: the write log is non-empty and the scene differs from
the pre-run scene, contradicting "finalize() commits nothing ... the scene
is left exactly as before the run". -/
theorem process_failure_cex :
    (runJob failOnUnprintableEngine false
        [⟨[], (1, 1), 0, -1, 0, 0⟩] [] [⟨[], (7, 7), 0, -1, 0, 1⟩]
        [⟨(1, 1), 0, 0⟩, ⟨(7, 7), 0, 0⟩]).2 = true ∧
      (runJob failOnUnprintableEngine false
        [⟨[], (1, 1), 0, -1, 0, 0⟩] [] [⟨[], (7, 7), 0, -1, 0, 1⟩]
        [⟨(1, 1), 0, 0⟩, ⟨(7, 7), 0, 0⟩]).1.writes ≠ [] ∧
      (runJob failOnUnprintableEngine false
        [⟨[], (1, 1), 0, -1, 0, 0⟩] [] [⟨[], (7, 7), 0, -1, 0, 1⟩]
        [⟨(1, 1), 0, 0⟩, ⟨(7, 7), 0, 0⟩]).1.scene
        ≠ [⟨(1, 1), 0, 0⟩, ⟨(7, 7), 0, 0⟩] := by
  refine ⟨rfl, ?_, ?_⟩ <;> decide

/-- Claim C1 (amended): if the packing engine fails during `process()`, the
exception is caught inside `process()` and a non-fatal user-visible
notification is raised; but `finalize()` is still reached and, the run not
being cancelled, it commits: one transform write per item in the
post-process selected set and per unprintable item (the unprintable set
passes through a failed run unchanged before the bed shift). -/
theorem process_failure_still_commits
    (engine : List ArrangePolygon → List ArrangePolygon →
      Except Unit (List ArrangePolygon))
    (sel unsel unpr : List ArrangePolygon) (scene : Scene)
    (herr : (processJob engine sel unsel unpr).errorShown = true) :
    (runJob engine false sel unsel unpr scene).2 = true ∧
      (processJob engine sel unsel unpr).unprintable = unpr ∧
      (runJob engine false sel unsel unpr scene).1.writes.length
        = (processJob engine sel unsel unpr).selected.length + unpr.length := by
  have hunpr : (processJob engine sel unsel unpr).unprintable = unpr := by
    unfold processJob
    cases h1 : engine sel unsel with
    | error e => rfl
    | ok sel2 =>
        cases h2 : engine unpr [] with
        | error e => rfl
        | ok unpr2 =>
            exfalso
            unfold processJob at herr
            rw [h1, h2] at herr
            exact Bool.false_ne_true herr
  refine ⟨herr, hunpr, ?_⟩
  show (finalizeJob false (processJob engine sel unsel unpr).selected unsel
      (processJob engine sel unsel unpr).unprintable scene).writes.length = _
  rw [hunpr]
  simp [finalizeJob, applyAll_writes_length]

/-- Witness for the amended C1 at the concrete failing run: the selected
item was placed by the first engine call, the second call failed, and the
commit still wrote 1 + 1 = 2 transforms. -/
theorem process_failure_still_commits_witness :
    (runJob failOnUnprintableEngine false
        [⟨[], (1, 1), 0, -1, 0, 0⟩] [] [⟨[], (7, 7), 0, -1, 0, 1⟩]
        [⟨(1, 1), 0, 0⟩, ⟨(7, 7), 0, 0⟩]).1.writes.length = 2 := by
  have h := process_failure_still_commits failOnUnprintableEngine
    [⟨[], (1, 1), 0, -1, 0, 0⟩] [] [⟨[], (7, 7), 0, -1, 0, 1⟩]
    [⟨(1, 1), 0, 0⟩, ⟨(7, 7), 0, 0⟩] rfl
  rw [h.2.2]
  rfl

/-- Per-`add_brim` configuration.  `offset_ex` (libslic3r polygon offsetting,
outside the reviewed sources) is abstracted as the function `offsetEx`
returning the list of contours of the offset result. -/
structure BrimConfig where
  oneBrim : Bool
  brimWidth : Rat
  clearanceRadius : Rat
  offsetEx : Poly → Rat → List Poly

/-- Embedding of `add_brim` (ArrangeJob.cpp:72-86) with release-build
semantics: the `assert(brimmed.size() == 1)` is a no-op and
`ap.poly = brimmed[0]` takes the first contour; `brimmed[0]` on an empty
vector is an out-of-bounds access, modelled as `none`.  The C++ computes the
default margin from the global `brim_width`, then overwrites it when the
object config carries its own `brim_width`. -/
def add_brim (cfg : BrimConfig) (override : Option Rat) (p : Poly) : Option Poly :=
  if !cfg.oneBrim then
    let diff := cfg.brimWidth - cfg.clearanceRadius / 2
    let diff := match override with
      | some b => b - cfg.clearanceRadius / 2
      | none => diff
    if 0 < diff then
      match cfg.offsetEx p diff with
      | [] => none
      | c :: _ => some c
    else some p
  else some p

/-- The debug-build `assert(brimmed.size() == 1)` of `add_brim` as a
predicate: `false` exactly when the assertion would fire (a build with
assertions enabled aborts there). -/
def add_brim_assert (cfg : BrimConfig) (override : Option Rat) (p : Poly) : Bool :=
  if !cfg.oneBrim then
    let diff := cfg.brimWidth - cfg.clearanceRadius / 2
    let diff := match override with
      | some b => b - cfg.clearanceRadius / 2
      | none => diff
    if 0 < diff then (cfg.offsetEx p diff).length == 1
    else true
  else true

/-- A model instance: its printable flag and the arrange polygon
`get_arrange_poly` builds for it (boundary, current transform, bed index,
back-reference). -/
structure ModelInstance where
  printable : Bool
  ap : ArrangePolygon
  deriving DecidableEq, Repr

/-- A model object: its instances and the optional per-object `brim_width`
config entry read by `add_brim`. -/
structure ModelObject where
  instances : List ModelInstance
  brimOverride : Option Rat
  deriving DecidableEq, Repr

/-- The three item sets of the job (`m_selected`, `m_unselected`,
`m_unprintable`). -/
structure PrepState where
  selected : List ArrangePolygon
  unselected : List ArrangePolygon
  unprintable : List ArrangePolygon
  deriving DecidableEq, Repr

/-- The `obj_sel` table of `prepare_selected` (ArrangeJob.cpp:110-115): a
per-object slot holding the selected-instance-index list of the current
selection, populated from the selection content, skipping out-of-range
object ids. -/
def objSelOf (nobj : Nat) (content : List (Nat × List Nat)) :
    List (Option (List Nat)) :=
  content.foldl (fun arr s => if s.1 < nobj then arr.set s.1 (some s.2) else arr)
    (List.replicate nobj none)

/-- The `inst_sel` flags of one object (ArrangeJob.cpp:122-126): all false,
then true at each index of the selection's instance list. -/
def instSelOf (n : Nat) (l : Option (List Nat)) : List Bool :=
  match l with
  | none => List.replicate n false
  | some il => il.foldl (fun v i => v.set i true) (List.replicate n false)

/-- The container choice of ArrangeJob.cpp:132-135: printable and selected →
`m_selected`; printable and not selected → `m_unselected`; not printable →
`m_unprintable`. -/
def classifyInto (st : PrepState) (printable selFlag : Bool)
    (ap : ArrangePolygon) : PrepState :=
  if printable then
    if selFlag then { st with selected := st.selected ++ [ap] }
    else { st with unselected := st.unselected ++ [ap] }
  else { st with unprintable := st.unprintable ++ [ap] }

/-- The inner instance loop of `prepare_selected` over (instance, selection
flag) pairs: build the arrange polygon, run `add_brim` on its boundary, and
push it into the chosen container.  `none` propagates the out-of-bounds case
of `add_brim`. -/
def classifyPairs (cfg : BrimConfig) (ov : Option Rat)
    (pairs : List (ModelInstance × Bool)) (st : PrepState) : Option PrepState :=
  pairs.foldlM (fun st pr => do
    let bp ← add_brim cfg ov pr.1.ap.poly
    pure (classifyInto st pr.1.printable pr.2 { pr.1.ap with poly := bp })) st

/-- One object's pass of the loop (ArrangeJob.cpp:128-139). -/
def classifyObject (cfg : BrimConfig) (mo : ModelObject) (flags : List Bool)
    (st : PrepState) : Option PrepState :=
  classifyPairs cfg mo.brimOverride (mo.instances.zip flags) st

/-- The object loop of `prepare_selected` over (object, selection slot)
pairs, from an arbitrary starting state. -/
def classifyObjectsFrom (cfg : BrimConfig)
    (pairs : List (ModelObject × Option (List Nat))) (st : PrepState) :
    Option PrepState :=
  pairs.foldlM
    (fun st pr => classifyObject cfg pr.1 (instSelOf pr.1.instances.length pr.2) st) st

/-- The whole object loop (ArrangeJob.cpp:118-140), starting from the
cleared item sets. -/
def classifyObjects (cfg : BrimConfig) (objects : List ModelObject)
    (objSel : List (Option (List Nat))) : Option PrepState :=
  classifyObjectsFrom cfg (objects.zip objSel) ⟨[], [], []⟩

/-- The wipe-tower step (ArrangeJob.cpp:142-149): if a tower proxy exists it
goes to `m_selected` when the selection designates the tower, else to
`m_unselected`. -/
def addTower (st : PrepState) (wti : Option ArrangePolygon)
    (isTowerSelected : Bool) : PrepState :=
  match wti with
  | none => st
  | some wap =>
      if isTowerSelected then { st with selected := st.selected ++ [wap] }
      else { st with unselected := st.unselected ++ [wap] }

/-- `prepare_selected` up to and including the tower step: the state on
which the empty-selection fallback is tested. -/
def classify_and_tower (cfg : BrimConfig) (objects : List ModelObject)
    (content : List (Nat × List Nat)) (wti : Option ArrangePolygon)
    (isTowerSelected : Bool) : Option PrepState := do
  let st ← classifyObjects cfg objects (objSelOf objects.length content)
  pure (addTower st wti isTowerSelected)

/-- The fallback of ArrangeJob.cpp:152: `if (m_selected.empty())
m_selected.swap(m_unselected)`. -/
def swapIfEmpty (st : PrepState) : PrepState :=
  if st.selected.isEmpty then
    { st with selected := st.unselected, unselected := st.selected }
  else st

/-- The stride normalization of ArrangeJob.cpp:157:
`for (auto &p : m_unselected) p.translation(X) -= p.bed_idx * stride`. -/
def removeStrides (stride : Rat) (st : PrepState) : PrepState :=
  { st with unselected := st.unselected.map (fun p =>
      { p with translation := (p.translation.1 - p.bed_idx * stride, p.translation.2) }) }

/-- Embedding of `ArrangeJob::prepare_selected` (ArrangeJob.cpp:104-158). -/
def prepare_selected (cfg : BrimConfig) (objects : List ModelObject)
    (content : List (Nat × List Nat)) (wti : Option ArrangePolygon)
    (isTowerSelected : Bool) (stride : Rat) : Option PrepState := do
  let st ← classify_and_tower cfg objects content wti isTowerSelected
  pure (removeStrides stride (swapIfEmpty st))

/-- Embedding of `bed_stride` (ArrangeJob.cpp:245-248):
`(1 + LOGICAL_BED_GAP) * bedwidth`, with the gap fraction a parameter and
the result in the same (scaled) length units as the polygons — `scaled` is
linear, so it commutes with the product. -/
def bed_stride (gapFraction bedWidth : Rat) : Rat :=
  (1 + gapFraction) * bedWidth

/-- Number of printable instances in the scene. -/
def countPrintable (objects : List ModelObject) : Nat :=
  (objects.map (fun mo => (mo.instances.filter (fun mi => mi.printable)).length)).sum

theorem classifyPairs_nosel (cfg : BrimConfig) (ov : Option Rat)
    (pairs : List (ModelInstance × Bool)) (st st' : PrepState)
    (hf : ∀ pr ∈ pairs, pr.2 = false)
    (h : classifyPairs cfg ov pairs st = some st') :
    st'.selected = st.selected ∧
      st'.unselected.length
        = st.unselected.length + (pairs.filter (fun pr => pr.1.printable)).length := by
  induction pairs generalizing st with
  | nil =>
      simp [classifyPairs] at h
      subst h
      simp
  | cons pr pairs ih =>
      rw [classifyPairs, List.foldlM_cons] at h
      cases hb : add_brim cfg ov pr.1.ap.poly with
      | none => rw [hb] at h; simp at h
      | some bp =>
          rw [hb] at h
          simp only [Option.bind_eq_bind, Option.some_bind, Option.pure_def] at h
          have hpr : pr.2 = false := hf pr (List.mem_cons_self _ _)
          have h2 : classifyPairs cfg ov pairs
              (classifyInto st pr.1.printable pr.2 { pr.1.ap with poly := bp })
              = some st' := h
          have hrest := ih _ (fun q hq => hf q (List.mem_cons_of_mem _ hq)) h2
          rcases hrest with ⟨hs, hu⟩
          by_cases hp : pr.1.printable = true
          · constructor
            · rw [hs]; simp [classifyInto, hp, hpr]
            · rw [hu]; simp [classifyInto, hp, hpr, List.filter_cons]; omega
          · constructor
            · rw [hs]; simp [classifyInto, hp]
            · rw [hu]; simp [classifyInto, hp, hpr, List.filter_cons]

theorem length_filter_fst (l : List (ModelInstance × Bool)) :
    (l.filter (fun q => q.1.printable)).length
      = ((l.map Prod.fst).filter (fun mi => mi.printable)).length := by
  induction l with
  | nil => rfl
  | cons a l ih => by_cases h : a.1.printable = true <;> simp [List.filter_cons, h, ih]

theorem classifyObjectsFrom_nosel (cfg : BrimConfig)
    (pairs : List (ModelObject × Option (List Nat))) (st st' : PrepState)
    (hn : ∀ pr ∈ pairs, pr.2 = none)
    (h : classifyObjectsFrom cfg pairs st = some st') :
    st'.selected = st.selected ∧
      st'.unselected.length
        = st.unselected.length + countPrintable (pairs.map Prod.fst) := by
  induction pairs generalizing st with
  | nil =>
      simp [classifyObjectsFrom] at h
      subst h
      simp [countPrintable]
  | cons pr pairs ih =>
      rw [classifyObjectsFrom, List.foldlM_cons] at h
      cases hc : classifyObject cfg pr.1 (instSelOf pr.1.instances.length pr.2) st with
      | none => rw [hc] at h; simp at h
      | some st1 =>
          rw [hc] at h
          simp only [Option.bind_eq_bind, Option.some_bind] at h
          have h2 : classifyObjectsFrom cfg pairs st1 = some st' := h
          have hrest := ih st1 (fun q hq => hn q (List.mem_cons_of_mem _ hq)) h2
          have hpr : pr.2 = none := hn pr (List.mem_cons_self _ _)
          rw [hpr] at hc
          have hflags : instSelOf pr.1.instances.length none
              = List.replicate pr.1.instances.length false := rfl
          rw [hflags] at hc
          have hzf : ∀ q ∈ pr.1.instances.zip
              (List.replicate pr.1.instances.length false), q.2 = false := by
            intro q hq
            exact List.eq_of_mem_replicate (List.of_mem_zip hq).2
          have hstep := classifyPairs_nosel cfg pr.1.brimOverride
            (pr.1.instances.zip (List.replicate pr.1.instances.length false))
            st st1 hzf hc
          rcases hstep with ⟨hs1, hu1⟩
          have hmapfst : (pr.1.instances.zip
              (List.replicate pr.1.instances.length false)).map Prod.fst
              = pr.1.instances :=
            List.map_fst_zip _ _ (by simp)
          have hfl : ((pr.1.instances.zip
                (List.replicate pr.1.instances.length false)).filter
                  (fun q => q.1.printable)).length
              = (pr.1.instances.filter (fun mi => mi.printable)).length := by
            rw [length_filter_fst, hmapfst]
          rcases hrest with ⟨hs2, hu2⟩
          refine ⟨by rw [hs2, hs1], ?_⟩
          rw [hu2, hu1, hfl]
          simp [countPrintable]
          omega

theorem classifyObjects_empty_content (cfg : BrimConfig)
    (objects : List ModelObject) (st' : PrepState)
    (h : classifyObjects cfg objects (objSelOf objects.length []) = some st') :
    st'.selected = [] ∧ st'.unselected.length = countPrintable objects := by
  have hrep : objSelOf objects.length ([] : List (Nat × List Nat))
      = List.replicate objects.length none := rfl
  rw [hrep] at h
  have hn : ∀ pr ∈ objects.zip (List.replicate objects.length
      (none : Option (List Nat))), pr.2 = none := by
    intro q hq
    exact List.eq_of_mem_replicate (List.of_mem_zip hq).2
  have hmapfst : (objects.zip (List.replicate objects.length
      (none : Option (List Nat)))).map Prod.fst = objects :=
    List.map_fst_zip _ _ (by simp)
  have := classifyObjectsFrom_nosel cfg
    (objects.zip (List.replicate objects.length none)) ⟨[], [], []⟩ st' hn h
  rw [hmapfst] at this
  simpa using this

/-- Claim C3: in selection-based classification, whenever the state after
classifying every instance and the optional tower has an empty selected set,
`prepare_selected` swaps the selected and unselected sets (the stride
normalization then acts on the now-empty unselected set); in particular,
with an empty selection and no tower over N printable instances, the final
selected set has exactly N items. -/
theorem prepare_selected_fallback (cfg : BrimConfig) (objects : List ModelObject)
    (content : List (Nat × List Nat)) (wti : Option ArrangePolygon)
    (isTowerSelected : Bool) (stride : Rat) (st0 : PrepState)
    (h : classify_and_tower cfg objects content wti isTowerSelected = some st0)
    (hemp : st0.selected = []) :
    prepare_selected cfg objects content wti isTowerSelected stride
        = some ⟨st0.unselected, [], st0.unprintable⟩ ∧
      (content = [] → wti = none →
        st0.unselected.length = countPrintable objects) := by
  constructor
  · rw [prepare_selected, h]
    simp [swapIfEmpty, hemp, removeStrides]
  · intro hc hw
    subst hc; subst hw
    rw [classify_and_tower] at h
    cases hco : classifyObjects cfg objects (objSelOf objects.length []) with
    | none => rw [hco] at h; simp at h
    | some stx =>
        rw [hco] at h
        simp only [Option.bind_eq_bind, Option.some_bind, Option.pure_def,
          Option.some_inj] at h
        have haddt : addTower stx none isTowerSelected = stx := rfl
        rw [haddt] at h
        subst h
        exact (classifyObjects_empty_content cfg objects _ hco).2

/-- Concrete scene for the C3 witness: a brim configuration with the
unified-brim flag set (so `add_brim` leaves boundaries alone). -/
def cfgW : BrimConfig := ⟨true, 0, 0, fun _ _ => []⟩

/-- Concrete arrange polygon number k, backed by scene slot k. -/
def apW (k : Nat) : ArrangePolygon := ⟨[], (0, 0), 0, 0, 0, k⟩

/-- Concrete scene for the C3 witness: two objects, three printable
instances and one unprintable instance. -/
def objsW : List ModelObject :=
  [⟨[⟨true, apW 0⟩, ⟨true, apW 1⟩], none⟩,
   ⟨[⟨true, apW 2⟩, ⟨false, apW 3⟩], none⟩]

/-- Witness for C3: three printable instances, empty selection, no tower ⇒
all three end up in the selected set (fallback-to-all). -/
theorem prepare_selected_fallback_witness :
    prepare_selected cfgW objsW [] none false 5
        = some ⟨[apW 0, apW 1, apW 2], [], [apW 3]⟩ ∧
      [apW 0, apW 1, apW 2].length = countPrintable objsW := by
  have h := prepare_selected_fallback cfgW objsW [] none false 5
    ⟨[], [apW 0, apW 1, apW 2], [apW 3]⟩ (by decide) rfl
  exact ⟨h.1, h.2 rfl rfl⟩

/-- Claim C5: before engine invocation in selection-based arrangement, every
item ending in the fixed (unselected) set has `bed_idx × stride` subtracted
from its X translation, with `stride = (1 + gap_fraction) × bed_width`; in
particular gap fraction 0.1 and bed width 200 give stride 220, and bed index
2 gives an X reduction of 440. -/
theorem unselected_stride_normalized (cfg : BrimConfig)
    (objects : List ModelObject) (content : List (Nat × List Nat))
    (wti : Option ArrangePolygon) (isTowerSelected : Bool)
    (gap bw : Rat) (st0 : PrepState)
    (h : classify_and_tower cfg objects content wti isTowerSelected = some st0) :
    prepare_selected cfg objects content wti isTowerSelected (bed_stride gap bw)
        = some { swapIfEmpty st0 with
            unselected := (swapIfEmpty st0).unselected.map (fun p =>
              { p with translation :=
                  (p.translation.1 - p.bed_idx * ((1 + gap) * bw),
                   p.translation.2) }) } ∧
      bed_stride (1 / 10 : Rat) 200 = 220 ∧
      (2 : Rat) * bed_stride (1 / 10 : Rat) 200 = 440 := by
  refine ⟨?_, by norm_num [bed_stride], by norm_num [bed_stride]⟩
  rw [prepare_selected, h]
  simp [removeStrides, bed_stride]

/-- Concrete unselected item for the C5 witness: parked on bed 2 with X
translation 500. -/
def apW2 : ArrangePolygon := ⟨[], (500, 0), 0, 2, 0, 1⟩

/-- Concrete scene for the C5 witness: one object, instance 0 selected,
instance 1 (on bed 2) not selected. -/
def objsW2 : List ModelObject := [⟨[⟨true, apW 0⟩, ⟨true, apW2⟩], none⟩]

/-- Witness for C5: bed index 2, bed width 200, gap fraction 0.1 ⇒ stride
220 ⇒ the fixed item's X translation drops from 500 to 500 − 440 = 60. -/
theorem unselected_stride_normalized_witness :
    prepare_selected cfgW objsW2 [(0, [0])] none false
        (bed_stride (1 / 10 : Rat) 200)
      = some ⟨[apW 0], [⟨[], (60, 0), 0, 2, 0, 1⟩], []⟩ := by
  have h := unselected_stride_normalized cfgW objsW2 [(0, [0])] none false
    (1 / 10 : Rat) 200 ⟨[apW 0], [apW2], []⟩ (by decide)
  rw [h.1]
  simp [swapIfEmpty, apW, apW2]
  norm_num

/-- Claim C6: `add_brim` leaves the boundary unchanged when the unified-brim
flag is set, regardless of the other values; otherwise, with
`margin = (override ?? default_brim_width) − clearance_radius / 2`, it
leaves the boundary unchanged when `margin ≤ 0` and replaces it by its
outward offset by `margin` when `margin > 0` (the offset yielding the
required single contour). -/
theorem add_brim_spec (cfg : BrimConfig) (override : Option Rat) (p : Poly) :
    (cfg.oneBrim = true → add_brim cfg override p = some p) ∧
    (cfg.oneBrim = false →
      (override.getD cfg.brimWidth - cfg.clearanceRadius / 2 ≤ 0 →
        add_brim cfg override p = some p) ∧
      (∀ c, 0 < override.getD cfg.brimWidth - cfg.clearanceRadius / 2 →
        cfg.offsetEx p (override.getD cfg.brimWidth - cfg.clearanceRadius / 2)
            = [c] →
        add_brim cfg override p = some c)) := by
  cases override with
  | none =>
      refine ⟨fun h1 => by simp [add_brim, h1],
        fun h1 => ⟨fun hle => ?_, fun c hpos heq => ?_⟩⟩
      · simp only [Option.getD] at hle
        simp [add_brim, h1, not_lt.mpr hle]
      · simp only [Option.getD] at hpos heq
        simp [add_brim, h1, hpos, heq]
  | some b =>
      refine ⟨fun h1 => by simp [add_brim, h1],
        fun h1 => ⟨fun hle => ?_, fun c hpos heq => ?_⟩⟩
      · simp only [Option.getD] at hle
        simp [add_brim, h1, not_lt.mpr hle]
      · simp only [Option.getD] at hpos heq
        simp [add_brim, h1, hpos, heq]

/-- Concrete configuration for the C6 witness: brim width 5, clearance
radius 4, unified flag false; the offset function shifts every vertex by the
margin and returns a single contour. -/
def cfgBrim : BrimConfig :=
  ⟨false, 5, 4, fun p d => [p.map (fun q => (q.1 + d, q.2 + d))]⟩

/-- Same as cfgBrim but with the unified-brim flag set. -/
def cfgBrimU : BrimConfig :=
  ⟨true, 5, 4, fun p d => [p.map (fun q => (q.1 + d, q.2 + d))]⟩

/-- Witness for C6: brim width 5, clearance radius 4, unified flag false ⇒
margin 3 ⇒ the boundary is replaced by its +3 offset; unified flag true ⇒
no inflation. -/
theorem add_brim_spec_witness :
    add_brim cfgBrim none [(0, 0)] = some [(3, 3)] ∧
      add_brim cfgBrimU none [(0, 0)] = some [(0, 0)] := by
  have h1 := add_brim_spec cfgBrim none [(0, 0)]
  have h2 := add_brim_spec cfgBrimU none [(0, 0)]
  exact ⟨(h1.2 rfl).2 [(3, 3)] (by norm_num [cfgBrim]) (by norm_num [cfgBrim]),
    h2.1 rfl⟩

/-- Offset function returning two contours: the degenerate case the
assertion of `add_brim` guards against. -/
def cfgTwo : BrimConfig := ⟨false, 5, 4, fun _ _ => [[(1, 1)], [(2, 2)]]⟩

/-- Offset function returning zero contours. -/
def cfgZero : BrimConfig := ⟨false, 5, 4, fun _ _ => []⟩

/-- Counterexample to claim C7: with a positive margin whose offset yields
two contours, the debug assertion does fire (fatal), but in a non-debug
build the inflation is NOT skipped: the boundary is replaced by the first
contour, not left unchanged. -/
theorem add_brim_multi_contour_cex :
    add_brim_assert cfgTwo none [(0, 0)] = false ∧
      add_brim cfgTwo none [(0, 0)] ≠ some [(0, 0)] := by
  refine ⟨?_, ?_⟩ <;> norm_num [add_brim_assert, add_brim, cfgTwo]

/-- Claim C7 (amended): when brim inflation by a positive margin yields a
contour count different from one, the condition is fatal in a debug build
(the assertion fails); in a non-debug build the assertion is a no-op and
`ap.poly = brimmed[0]` executes regardless: with at least one contour the
boundary is replaced by the first contour, and with zero contours the access
is out of bounds (undefined behaviour, modelled as `none`) — the inflation
is not skipped. -/
theorem add_brim_invariant_violation (cfg : BrimConfig) (override : Option Rat)
    (p : Poly) (h1 : cfg.oneBrim = false)
    (hpos : 0 < override.getD cfg.brimWidth - cfg.clearanceRadius / 2) :
    ((cfg.offsetEx p (override.getD cfg.brimWidth - cfg.clearanceRadius / 2)).length
        ≠ 1 → add_brim_assert cfg override p = false) ∧
      (∀ c rest, cfg.offsetEx p
          (override.getD cfg.brimWidth - cfg.clearanceRadius / 2) = c :: rest →
        add_brim cfg override p = some c) ∧
      (cfg.offsetEx p (override.getD cfg.brimWidth - cfg.clearanceRadius / 2)
          = [] → add_brim cfg override p = none) := by
  cases override with
  | none =>
      simp only [Option.getD] at hpos ⊢
      refine ⟨fun hne => ?_, fun c rest heq => ?_, fun heq => ?_⟩
      · simp [add_brim_assert, h1, hpos, hne]
      · simp [add_brim, h1, hpos, heq]
      · simp [add_brim, h1, hpos, heq]
  | some b =>
      simp only [Option.getD] at hpos ⊢
      refine ⟨fun hne => ?_, fun c rest heq => ?_, fun heq => ?_⟩
      · simp [add_brim_assert, h1, hpos, hne]
      · simp [add_brim, h1, hpos, heq]
      · simp [add_brim, h1, hpos, heq]

/-- Witness for the amended C7: the two-contour offset fails the assertion
and yields the first contour; the zero-contour offset fails the assertion
and yields the out-of-bounds marker. -/
theorem add_brim_invariant_violation_witness :
    add_brim_assert cfgTwo none [(0, 0)] = false ∧
      add_brim cfgTwo none [(0, 0)] = some [(1, 1)] ∧
      add_brim cfgZero none [(0, 0)] = none := by
  have h := add_brim_invariant_violation cfgTwo none [(0, 0)] rfl
    (by norm_num [cfgTwo])
  have h0 := add_brim_invariant_violation cfgZero none [(0, 0)] rfl
    (by norm_num [cfgZero])
  exact ⟨h.1 (by simp [cfgTwo]), h.2.1 [(1, 1)] [[(2, 2)]] rfl, h0.2.2 rfl⟩

/-- The arrange-settings slice read by `ArrangeJob::process`. -/
structure ArrangeSettings where
  distance : Rat
  enable_rotation : Bool
  deriving DecidableEq, Repr

/-- The engine parameter bundle fields built by `process`. -/
structure ArrangeParams where
  allow_rotations : Bool
  min_obj_distance : Rat
  deriving DecidableEq, Repr

/-- Embedding of the parameter construction of `ArrangeJob::process`
(ArrangeJob.cpp:172-175): `params.allow_rotations = settings.enable_rotation`
and `params.min_obj_distance = scaled(max(double(settings.distance),
min_dist_computed * 2))` — `scaled` is linear, so it is folded into the
common length units. -/
def mkArrangeParams (settings : ArrangeSettings) (min_dist_computed : Rat) :
    ArrangeParams :=
  ⟨settings.enable_rotation, max settings.distance (min_dist_computed * 2)⟩

/-- Claim C8: the minimum spacing passed to the packing engine equals
`max(user_configured_distance, 2 × model_minimum_object_distance)`; in
particular the physically-required minimum dominates whenever it is at least
the user preference, and conversely. -/
theorem min_spacing_max (s : ArrangeSettings) (m : Rat) :
    (mkArrangeParams s m).min_obj_distance = max s.distance (2 * m) ∧
      (s.distance ≤ 2 * m → (mkArrangeParams s m).min_obj_distance = 2 * m) ∧
      (2 * m ≤ s.distance → (mkArrangeParams s m).min_obj_distance = s.distance) := by
  have hcomm : m * 2 = 2 * m := by ring
  refine ⟨by simp [mkArrangeParams, hcomm], fun h => ?_, fun h => ?_⟩
  · show max s.distance (m * 2) = 2 * m
    rw [hcomm]
    exact max_eq_right h
  · show max s.distance (m * 2) = s.distance
    rw [hcomm]
    exact max_eq_left h

/-- Witness for C8: user distance 2, model minimum 3 ⇒ the stricter physical
minimum 6 wins; user distance 10, model minimum 3 ⇒ the user preference 10
wins. -/
theorem min_spacing_max_witness :
    (mkArrangeParams ⟨2, true⟩ 3).min_obj_distance = 6 ∧
      (mkArrangeParams ⟨10, true⟩ 3).min_obj_distance = 10 := by
  have h1 := (min_spacing_max ⟨2, true⟩ 3).2.1 (by norm_num)
  have h2 := (min_spacing_max ⟨10, true⟩ 3).2.2 (by norm_num)
  norm_num at h1
  exact ⟨h1, h2⟩

end ArrangeJob

namespace PrintRegion

/-- The flow roles named by PrintRegion.cpp (the `FlowRole` enumeration of
libslic3r). -/
inductive FlowRole where
  | frExternalPerimeter
  | frPerimeter
  | frInfill
  | frSolidInfill
  | frTopSolidInfill
  | frSupportMaterial
  | frSupportMaterialInterface
  deriving DecidableEq, Repr

/-- `ConfigOptionFloatOrPercent`: an absolute value or a percent value. -/
structure FloatOrPercent where
  value : Rat
  percent : Bool
  deriving DecidableEq, Repr

/-- The region-config slice read by PrintRegion.cpp. -/
structure RegionConfig where
  perimeter_extruder : Nat
  infill_extruder : Nat
  solid_infill_extruder : Nat
  external_perimeter_extrusion_width : FloatOrPercent
  perimeter_extrusion_width : FloatOrPercent
  infill_extrusion_width : FloatOrPercent
  solid_infill_extrusion_width : FloatOrPercent
  top_infill_extrusion_width : FloatOrPercent
  bridge_flow_ratio : FloatOrPercent
  deriving DecidableEq, Repr

/-- The object-config slice read by PrintRegion.cpp. -/
structure ObjectConfig where
  support_material_extruder : Nat
  support_material_interface_extruder : Nat
  first_layer_extrusion_width : FloatOrPercent
  extrusion_width : FloatOrPercent
  support_material_extrusion_width : FloatOrPercent
  deriving DecidableEq, Repr

/-- The print-config slice read by PrintRegion.cpp. -/
structure PrintConfig where
  nozzle_diameter : List Rat
  deriving DecidableEq, Repr

/-- Success test for the embedded throwing functions. -/
def isOk {α : Type} (e : Except String α) : Bool :=
  match e with
  | .ok _ => true
  | .error _ => false

/-- Embedding of `PrintRegion::extruder` (PrintRegion.cpp:7-23): the 1-based
extruder identifier for a role, with the `throw InvalidArgument("Unknown
role")` tail branch as the error case. -/
def extruder (rc : RegionConfig) (oc : ObjectConfig) (role : FlowRole) :
    Except String Nat :=
  if role = .frPerimeter ∨ role = .frExternalPerimeter then
    .ok rc.perimeter_extruder
  else if role = .frInfill then .ok rc.infill_extruder
  else if role = .frSolidInfill ∨ role = .frTopSolidInfill then
    .ok rc.solid_infill_extruder
  else if role = .frSupportMaterial then .ok oc.support_material_extruder
  else if role = .frSupportMaterialInterface then
    .ok oc.support_material_interface_extruder
  else .error "Unknown role"

/-- `ConfigOptionVector::get_at` as documented by the source comment at
PrintRegion.cpp:56: an in-range index reads that element, an out-of-range
index falls back to the 0th element. -/
def get_at (values : List Rat) (i : Nat) : Rat :=
  values.getD i (values.headD 0)

/-- The index expression `this->extruder(role, object) - 1`
(PrintRegion.cpp:57/89): the `uint16_t` extruder id is promoted to `int`, 1
is subtracted, and the result converts to the unsigned `size_t` index, so id
0 wraps to `2^64 − 1`. -/
def nozzle_index (e : Nat) : Nat :=
  if e = 0 then 2 ^ 64 - 1 else e - 1

/-- The `config_width` selection chain of `PrintRegion::flow`
(PrintRegion.cpp:27-50). -/
def flow_config_width (rc : RegionConfig) (oc : ObjectConfig) (role : FlowRole)
    (first_layer : Bool) (width : Rat) : Except String FloatOrPercent :=
  if width ≠ (-1 : Rat) then .ok ⟨width, false⟩
  else if first_layer ∧ 0 < oc.first_layer_extrusion_width.value then
    .ok oc.first_layer_extrusion_width
  else if role = .frExternalPerimeter then .ok rc.external_perimeter_extrusion_width
  else if role = .frPerimeter then .ok rc.perimeter_extrusion_width
  else if role = .frInfill then .ok rc.infill_extrusion_width
  else if role = .frSolidInfill then .ok rc.solid_infill_extrusion_width
  else if role = .frTopSolidInfill then .ok rc.top_infill_extrusion_width
  else .error "Unknown role"

/-- The data `PrintRegion::flow` hands to `Flow::new_from_config_width`
(which lives outside the reviewed sources and is therefore kept abstract). -/
structure FlowResult where
  role : FlowRole
  config_width : FloatOrPercent
  nozzle_diameter : Rat
  layer_height : Rat
  bridge_ratio : Rat
  deriving DecidableEq, Repr

/-- Embedding of `PrintRegion::flow` (PrintRegion.cpp:25-59).  `abs_value`
abstracts `ConfigOptionFloatOrPercent::get_abs_value` (outside the reviewed
sources); a thrown exception propagates as `error`. -/
def flow (pc : PrintConfig) (rc : RegionConfig) (oc : ObjectConfig)
    (abs_value : FloatOrPercent → Rat → Rat) (role : FlowRole)
    (layer_height : Rat) (bridge first_layer : Bool) (width : Rat) :
    Except String FlowResult :=
  match flow_config_width rc oc role first_layer width with
  | .error e => .error e
  | .ok cw0 =>
    let config_width := if cw0.value = 0 then oc.extrusion_width else cw0
    match extruder rc oc role with
    | .error e => .error e
    | .ok e =>
      let nozzle_diameter := get_at pc.nozzle_diameter (nozzle_index e)
      .ok ⟨role, config_width, nozzle_diameter, layer_height,
        if bridge then abs_value rc.bridge_flow_ratio 1 else 0⟩

/-- The `config_width` selection chain of `PrintRegion::width`
(PrintRegion.cpp:63-82), which also handles the support roles. -/
def width_config_width (rc : RegionConfig) (oc : ObjectConfig) (role : FlowRole)
    (first_layer : Bool) : Except String FloatOrPercent :=
  if first_layer ∧ 0 < oc.first_layer_extrusion_width.value then
    .ok oc.first_layer_extrusion_width
  else if role = .frExternalPerimeter then .ok rc.external_perimeter_extrusion_width
  else if role = .frPerimeter then .ok rc.perimeter_extrusion_width
  else if role = .frInfill then .ok rc.infill_extrusion_width
  else if role = .frSolidInfill then .ok rc.solid_infill_extrusion_width
  else if role = .frTopSolidInfill then .ok rc.top_infill_extrusion_width
  else if role = .frSupportMaterial ∨ role = .frSupportMaterialInterface then
    .ok oc.support_material_extrusion_width
  else .error "Unknown role"

/-- Embedding of `PrintRegion::width` (PrintRegion.cpp:61-97).  `auto_width`
abstracts `Flow::auto_extrusion_width` and `abs_value` abstracts
`get_abs_value` (both outside the reviewed sources). -/
def width (pc : PrintConfig) (rc : RegionConfig) (oc : ObjectConfig)
    (auto_width : FlowRole → Rat → Rat) (abs_value : FloatOrPercent → Rat → Rat)
    (role : FlowRole) (first_layer : Bool) : Except String Rat :=
  match width_config_width rc oc role first_layer with
  | .error e => .error e
  | .ok cw0 =>
    let config_width := if cw0.value = 0 then oc.extrusion_width else cw0
    match extruder rc oc role with
    | .error e => .error e
    | .ok e =>
      let nozzle_diameter := get_at pc.nozzle_diameter (nozzle_index e)
      if config_width.value ≤ 0 then .ok (auto_width role nozzle_diameter)
      else .ok (abs_value config_width nozzle_diameter)

theorem extruder_ok (rc : RegionConfig) (oc : ObjectConfig) (role : FlowRole) :
    ∃ n, extruder rc oc role = Except.ok n := by
  cases role <;> exact ⟨_, rfl⟩

theorem width_config_width_ok (rc : RegionConfig) (oc : ObjectConfig)
    (role : FlowRole) (first_layer : Bool) :
    isOk (width_config_width rc oc role first_layer) = true := by
  by_cases hfl : first_layer = true ∧ 0 < oc.first_layer_extrusion_width.value
  · simp [width_config_width, hfl, isOk]
  · cases role <;> simp [width_config_width, hfl, isOk]

theorem flow_config_width_ok (rc : RegionConfig) (oc : ObjectConfig)
    (role : FlowRole) (first_layer : Bool) (w : Rat)
    (h1 : role ≠ FlowRole.frSupportMaterial)
    (h2 : role ≠ FlowRole.frSupportMaterialInterface) :
    isOk (flow_config_width rc oc role first_layer w) = true := by
  by_cases hw : w = -1
  · subst hw
    by_cases hfl : first_layer = true ∧ 0 < oc.first_layer_extrusion_width.value
    · simp [flow_config_width, hfl, isOk]
    · cases role <;> first
        | exact absurd rfl h1
        | exact absurd rfl h2
        | simp [flow_config_width, hfl, isOk]
  · simp [flow_config_width, hw, isOk]

/-- Claim C9: `PrintRegion::extruder`, `flow` and `width` raise the
descriptive "Unknown role" error for a role their selection chain does not
handle, and return without raising for every handled role: `extruder` and
`width` handle every role of the enumeration; `flow`'s config-width chain
(reached when no custom width is supplied and no first-layer override
applies) does not handle the support roles and raises exactly there. -/
theorem unknown_role_handling :
    (∀ (rc : RegionConfig) (oc : ObjectConfig) (role : FlowRole),
      isOk (extruder rc oc role) = true) ∧
      (∀ (pc : PrintConfig) (rc : RegionConfig) (oc : ObjectConfig)
          (aw : FlowRole → Rat → Rat) (av : FloatOrPercent → Rat → Rat)
          (role : FlowRole) (fl : Bool),
        isOk (width pc rc oc aw av role fl) = true) ∧
      (∀ (pc : PrintConfig) (rc : RegionConfig) (oc : ObjectConfig)
          (av : FloatOrPercent → Rat → Rat) (role : FlowRole) (lh : Rat)
          (br fl : Bool),
        (role = FlowRole.frSupportMaterial ∨
          role = FlowRole.frSupportMaterialInterface) →
        ¬(fl = true ∧ 0 < oc.first_layer_extrusion_width.value) →
        flow pc rc oc av role lh br fl (-1) = Except.error "Unknown role") ∧
      (∀ (pc : PrintConfig) (rc : RegionConfig) (oc : ObjectConfig)
          (av : FloatOrPercent → Rat → Rat) (role : FlowRole) (lh : Rat)
          (br fl : Bool) (w : Rat),
        role ≠ FlowRole.frSupportMaterial →
        role ≠ FlowRole.frSupportMaterialInterface →
        isOk (flow pc rc oc av role lh br fl w) = true) := by
  refine ⟨?_, ?_, ?_, ?_⟩
  · intro rc oc role
    obtain ⟨n, hn⟩ := extruder_ok rc oc role
    rw [hn]
    rfl
  · intro pc rc oc aw av role fl
    have hok := width_config_width_ok rc oc role fl
    cases hcw : width_config_width rc oc role fl with
    | error e => rw [hcw] at hok; simp [isOk] at hok
    | ok cw =>
        obtain ⟨n, hn⟩ := extruder_ok rc oc role
        simp only [width, hcw, hn]
        split <;> split <;> rfl
  · intro pc rc oc av role lh br fl hrole hfl
    rcases hrole with h | h <;> subst h <;> simp [flow, flow_config_width, hfl]
  · intro pc rc oc av role lh br fl w h1 h2
    have hok := flow_config_width_ok rc oc role fl w h1 h2
    cases hcw : flow_config_width rc oc role fl w with
    | error e => rw [hcw] at hok; simp [isOk] at hok
    | ok cw =>
        obtain ⟨n, hn⟩ := extruder_ok rc oc role
        simp only [flow, hcw, hn]
        rfl

/-- Concrete region config for the C9/C10 witnesses: every extruder id 1,
every width 1 (absolute). -/
def rcZ : RegionConfig :=
  ⟨1, 1, 1, ⟨1, false⟩, ⟨1, false⟩, ⟨1, false⟩, ⟨1, false⟩, ⟨1, false⟩, ⟨1, false⟩⟩

/-- Concrete object config for the C9/C10 witnesses. -/
def ocZ : ObjectConfig := ⟨1, 1, ⟨0, false⟩, ⟨1, false⟩, ⟨1, false⟩⟩

/-- Concrete print config for the C9/C10 witnesses. -/
def pcZ : PrintConfig := ⟨[1]⟩

/-- Concrete stand-in for the abstracted `Flow::auto_extrusion_width`. -/
def awZ : FlowRole → Rat → Rat := fun _ nd => nd

/-- Concrete stand-in for the abstracted `get_abs_value`. -/
def avZ : FloatOrPercent → Rat → Rat := fun cw _ => cw.value

/-- Witness for C9: every lookup succeeds on a handled role, and `flow` with
no custom width and no first-layer override raises "Unknown role" on a
support role. -/
theorem unknown_role_handling_witness :
    isOk (extruder rcZ ocZ FlowRole.frPerimeter) = true ∧
      isOk (width pcZ rcZ ocZ awZ avZ FlowRole.frSupportMaterial false) = true ∧
      flow pcZ rcZ ocZ avZ FlowRole.frSupportMaterial 1 false false (-1)
          = Except.error "Unknown role" ∧
      isOk (flow pcZ rcZ ocZ avZ FlowRole.frInfill 1 false false (-1)) = true := by
  have h := unknown_role_handling
  exact ⟨h.1 rcZ ocZ _, h.2.1 pcZ rcZ ocZ awZ avZ _ false,
    h.2.2.1 pcZ rcZ ocZ avZ _ 1 false false (Or.inl rfl) (by simp),
    h.2.2.2 pcZ rcZ ocZ avZ _ 1 false false (-1) (by decide) (by decide)⟩

theorem get_at_underflow (nd : List Rat) (hlen : nd.length < 2 ^ 64) :
    get_at nd (nozzle_index 0) = nd.headD 0 := by
  have hge : nd.length ≤ 2 ^ 64 - 1 := by omega
  rw [get_at, nozzle_index]
  simp only [if_pos rfl]
  exact List.getD_eq_default _ _ hge

theorem get_at_mem (nd : List Rat) (h : nd ≠ []) (i : Nat) : get_at nd i ∈ nd := by
  rw [get_at]
  by_cases hi : i < nd.length
  · rw [List.getD_eq_getElem _ _ hi]
    exact List.getElem_mem hi
  · rw [List.getD_eq_default _ _ (le_of_not_lt hi)]
    cases nd with
    | nil => exact absurd rfl h
    | cons a l => exact List.mem_cons_self a l

/-- Claim C10: the nozzle-diameter lookup indexed by
`extruder(role, object) − 1` is total.  A configured extruder id of 0 makes
the index underflow to `2^64 − 1`, which `get_at` resolves to the 0th
`nozzle_diameter` element instead of an out-of-bounds access; every `get_at`
result is an element of the table; every successful `flow` carries the
`get_at` value for its extruder id (the 0th element when that id is 0); and
`width` returns a value for every role. -/
theorem nozzle_lookup_total (nd : List Rat) (h : nd ≠ [])
    (hlen : nd.length < 2 ^ 64) :
    nozzle_index 0 = 2 ^ 64 - 1 ∧
      get_at nd (nozzle_index 0) = nd.headD 0 ∧
      (∀ i, get_at nd i ∈ nd) ∧
      (∀ (pc : PrintConfig) (rc : RegionConfig) (oc : ObjectConfig)
          (av : FloatOrPercent → Rat → Rat) (role : FlowRole) (lh : Rat)
          (br fl : Bool) (w : Rat) (out : FlowResult),
        pc.nozzle_diameter = nd →
        flow pc rc oc av role lh br fl w = Except.ok out →
        ∃ e, extruder rc oc role = Except.ok e ∧
          out.nozzle_diameter = get_at nd (nozzle_index e) ∧
          (e = 0 → out.nozzle_diameter = nd.headD 0)) ∧
      (∀ (pc : PrintConfig) (rc : RegionConfig) (oc : ObjectConfig)
          (aw : FlowRole → Rat → Rat) (av : FloatOrPercent → Rat → Rat)
          (role : FlowRole) (fl : Bool),
        isOk (width pc rc oc aw av role fl) = true) := by
  refine ⟨rfl, get_at_underflow nd hlen, get_at_mem nd h, ?_, ?_⟩
  · intro pc rc oc av role lh br fl w out hpc hout
    cases hcw : flow_config_width rc oc role fl w with
    | error e =>
        simp only [flow, hcw] at hout
        cases hout
    | ok cw =>
        cases he : extruder rc oc role with
        | error e2 =>
            simp only [flow, hcw, he] at hout
            cases hout
        | ok e =>
            simp only [flow, hcw, he, Except.ok.injEq] at hout
            subst hout
            refine ⟨e, rfl, ?_, ?_⟩
            · rw [hpc]
            · intro he0
              subst he0
              rw [hpc]
              exact get_at_underflow nd hlen
  · intro pc rc oc aw av role fl
    have hok := width_config_width_ok rc oc role fl
    cases hcw : width_config_width rc oc role fl with
    | error e => rw [hcw] at hok; simp [isOk] at hok
    | ok cw =>
        obtain ⟨n, hn⟩ := extruder_ok rc oc role
        simp only [width, hcw, hn]
        split <;> split <;> rfl

/-- Witness for C10: the two-element table [7, 9] with extruder id 0 resolves
to its 0th element, 7, and any index yields a table element. -/
theorem nozzle_lookup_total_witness :
    get_at [7, 9] (nozzle_index 0) = 7 ∧ get_at [7, 9] 5 ∈ [7, 9] := by
  have h := nozzle_lookup_total [7, 9] (by simp) (by norm_num)
  refine ⟨?_, h.2.2.1 5⟩
  rw [h.2.1]
  rfl

end PrintRegion
